import Mathlib

/-
Verification of the creative-document-processor backend (Python) against its
design specification, by shallow embedding of the relevant modules into Lean.

Embedded modules:
  * app/services/sse.py          — SSE wire framing and the per-session event channel
  * app/services/langgraph_agent.py — the agent pipeline (retrieval, scraper tool,
    parser, creative nodes), its routing table and run_agent with its fallback

External collaborators (the vector index, the product scraper and the language
model) are modelled as function parameters, matching the contracts the spec
gives them in §6.  Python lists, dicts-with-fixed-keys and Optional values are
modelled as List, structure and Option; Python truthiness of lists and
optional strings is modelled explicitly.  JSON serialization (Python's
json.dumps with its default escaping) is modelled by jsonDumps over a small
JSON value type.
-/

namespace CDP

/-! ## JSON values and serialization (model of Python json.dumps) -/

mutual
/-- JSON-serializable value, the model of the structured payloads the backend
passes to json.dumps (None, bools, ints, strings, lists, dicts). -/
inductive JVal where
  | null : JVal
  | bool (b : Bool) : JVal
  | num (n : Int) : JVal
  | str (s : String) : JVal
  | arr (xs : JList) : JVal
  | obj (kvs : JObj) : JVal

/-- List of JSON values (a Python list). -/
inductive JList where
  | nil : JList
  | cons (hd : JVal) (tl : JList) : JList

/-- String-keyed association list of JSON values (a Python dict). -/
inductive JObj where
  | nil : JObj
  | cons (key : String) (val : JVal) (tl : JObj) : JObj
end

/-- Character-level append of strings, unfolded to list append. -/
theorem data_append (s t : String) : (s ++ t).data = s.data ++ t.data := by
  cases s; cases t; rfl

/-- Escape of one character inside a JSON string literal, as json.dumps
escapes it (quote, backslash and the control characters it writes as
two-character escapes; other characters pass through). -/
def escChar (c : Char) : List Char :=
  if c = '"' then ['\\', '"']
  else if c = '\\' then ['\\', '\\']
  else if c = '\n' then ['\\', 'n']
  else if c = '\t' then ['\\', 't']
  else if c = '\r' then ['\\', 'r']
  else [c]

/-- JSON string-body escaping, character by character. -/
def escString (s : String) : String := ⟨(s.data.map escChar).flatten⟩

/-- Concatenating newline-free strings yields a newline-free string. -/
theorem noNl_str_append {s t : String} (hs : '\n' ∉ s.data) (ht : '\n' ∉ t.data) :
    '\n' ∉ (s ++ t).data := by
  rw [data_append]
  intro h
  rcases List.mem_append.mp h with h | h
  · exact hs h
  · exact ht h

/-- Decimal digits of a natural number, most significant first, accumulated
onto `acc`. -/
def natDigitsAux (n : Nat) (acc : List Char) : List Char :=
  if h : n = 0 then acc
  else natDigitsAux (n / 10) (Char.ofNat (48 + n % 10) :: acc)
termination_by n
decreasing_by exact Nat.div_lt_self (Nat.pos_of_ne_zero h) (by norm_num)

/-- Decimal rendering of a natural number. -/
def natRepr (n : Nat) : String := if n = 0 then "0" else ⟨natDigitsAux n []⟩

/-- Decimal rendering of an integer (Python str of an int). -/
def intRepr (n : Int) : String :=
  if n < 0 then "-" ++ natRepr n.natAbs else natRepr n.natAbs

/-- Comma-space joining of rendered JSON items (json.dumps default item
separator). -/
def joinComma : List String → String
  | [] => ""
  | [x] => x
  | x :: y :: xs => x ++ ", " ++ joinComma (y :: xs)

mutual
/-- Model of json.dumps on a JSON value: a single-line rendering with
escaped string bodies. -/
def jsonDumps : JVal → String
  | .null => "null"
  | .bool true => "true"
  | .bool false => "false"
  | .num n => intRepr n
  | .str s => "\"" ++ escString s ++ "\""
  | .arr xs => "[" ++ joinComma (jsonDumpsList xs) ++ "]"
  | .obj kvs => "\x7b" ++ joinComma (jsonDumpsObj kvs) ++ "\x7d"

/-- Renderings of the items of a JSON list. -/
def jsonDumpsList : JList → List String
  | .nil => []
  | .cons x xs => jsonDumps x :: jsonDumpsList xs

/-- Renderings of the key-value entries of a JSON dict. -/
def jsonDumpsObj : JObj → List String
  | .nil => []
  | .cons k v rest => ("\"" ++ escString k ++ "\": " ++ jsonDumps v) :: jsonDumpsObj rest
end

theorem escChar_noNl (c : Char) : '\n' ∉ escChar c := by
  unfold escChar
  split
  · decide
  split
  · decide
  split
  · decide
  split
  · decide
  split
  · decide
  next h1 h2 h3 h4 h5 =>
    intro hmem
    rcases List.mem_singleton.mp hmem with rfl
    exact h3 rfl

theorem escString_noNl (s : String) : '\n' ∉ (escString s).data := by
  show '\n' ∉ (s.data.map escChar).flatten
  intro hmem
  rcases List.mem_flatten.mp hmem with ⟨l, hl, hcl⟩
  rcases List.mem_map.mp hl with ⟨c, _, rfl⟩
  exact escChar_noNl c hcl

theorem natDigitsAux_noNl (n : Nat) :
    ∀ acc : List Char, '\n' ∉ acc → '\n' ∉ natDigitsAux n acc := by
  induction n using Nat.strong_induction_on with
  | _ n ih =>
    intro acc hacc
    unfold natDigitsAux
    split
    · exact hacc
    next h =>
      apply ih (n / 10) (Nat.div_lt_self (Nat.pos_of_ne_zero h) (by norm_num))
      intro hmem
      rcases List.mem_cons.mp hmem with heq | hin
      · have hlt : n % 10 < 10 := Nat.mod_lt _ (by norm_num)
        revert heq
        interval_cases h10 : n % 10 <;> decide
      · exact hacc hin

theorem natRepr_noNl (n : Nat) : '\n' ∉ (natRepr n).data := by
  unfold natRepr
  split
  · decide
  · exact natDigitsAux_noNl n [] (by decide)

theorem intRepr_noNl (n : Int) : '\n' ∉ (intRepr n).data := by
  unfold intRepr
  split
  · rw [data_append]
    intro hmem
    rcases List.mem_append.mp hmem with h | h
    · revert h; decide
    · exact natRepr_noNl n.natAbs h
  · exact natRepr_noNl n.natAbs

theorem joinComma_noNl :
    ∀ l : List String, (∀ s ∈ l, '\n' ∉ s.data) → '\n' ∉ (joinComma l).data
  | [], _ => by decide
  | [x], h => by
      simpa [joinComma] using h x (List.mem_singleton.mpr rfl)
  | x :: y :: xs, h => by
      have hx := h x (by simp)
      have hrest := joinComma_noNl (y :: xs) (fun s hs => h s (List.mem_cons_of_mem _ hs))
      simp only [joinComma, data_append]
      intro hmem
      rcases List.mem_append.mp hmem with h1 | h2
      · rcases List.mem_append.mp h1 with h3 | h4
        · exact hx h3
        · revert h4; decide
      · exact hrest h2

mutual
/-- The rendering of any JSON value is a single line: json.dumps never
emits a raw newline. -/
def jsonDumps_noNl : ∀ j : JVal, '\n' ∉ (jsonDumps j).data
  | .null => by simp only [jsonDumps]; decide
  | .bool true => by simp only [jsonDumps]; decide
  | .bool false => by simp only [jsonDumps]; decide
  | .num n => by simp only [jsonDumps]; exact intRepr_noNl n
  | .str s => by
      simp only [jsonDumps]
      exact noNl_str_append (noNl_str_append (by decide) (escString_noNl s)) (by decide)
  | .arr xs => by
      simp only [jsonDumps]
      exact noNl_str_append
        (noNl_str_append (by decide) (joinComma_noNl _ (jsonDumpsList_noNl xs))) (by decide)
  | .obj kvs => by
      simp only [jsonDumps]
      exact noNl_str_append
        (noNl_str_append (by decide) (joinComma_noNl _ (jsonDumpsObj_noNl kvs))) (by decide)

/-- Item renderings of a JSON list are single lines. -/
def jsonDumpsList_noNl : ∀ l : JList, ∀ s ∈ jsonDumpsList l, '\n' ∉ s.data
  | .nil => by simp [jsonDumpsList]
  | .cons x xs => by
      intro s hs
      simp only [jsonDumpsList] at hs
      rcases List.mem_cons.mp hs with rfl | hin
      · exact jsonDumps_noNl x
      · exact jsonDumpsList_noNl xs s hin

/-- Entry renderings of a JSON dict are single lines. -/
def jsonDumpsObj_noNl : ∀ o : JObj, ∀ s ∈ jsonDumpsObj o, '\n' ∉ s.data
  | .nil => by simp [jsonDumpsObj]
  | .cons k v rest => by
      intro s hs
      simp only [jsonDumpsObj] at hs
      rcases List.mem_cons.mp hs with rfl | hin
      · exact noNl_str_append
          (noNl_str_append (noNl_str_append (by decide) (escString_noNl k)) (by decide))
          (jsonDumps_noNl v)
      · exact jsonDumpsObj_noNl rest s hin
end

/-! ## Newline splitting (model of Python str.split on a newline) -/

/-- Split of a character list at each newline, keeping empty pieces, exactly
as Python's split with a one-character separator: the empty input gives one
empty piece, a trailing newline gives a trailing empty piece. -/
def pySplitAux : List Char → List (List Char)
  | [] => [[]]
  | c :: rest =>
    if c = '\n' then [] :: pySplitAux rest
    else (c :: (pySplitAux rest).headI) :: (pySplitAux rest).tail

/-- Python data.split on a newline, as a list of strings. -/
def pySplitNl (s : String) : List String := (pySplitAux s.data).map fun cs => ⟨cs⟩

theorem pySplitAux_ne_nil (l : List Char) : pySplitAux l ≠ [] := by
  cases l with
  | nil => simp [pySplitAux]
  | cons c rest =>
    simp only [pySplitAux]
    split
    · simp
    · simp

/-- Splitting a list that starts with a newline-free prefix followed by a
newline peels off that prefix as the first piece. -/
theorem pySplitAux_append_nl (a b : List Char) (ha : '\n' ∉ a) :
    pySplitAux (a ++ '\n' :: b) = a :: pySplitAux b := by
  induction a with
  | nil => simp [pySplitAux]
  | cons c a ih =>
    have hc : c ≠ '\n' := fun h => ha (h ▸ List.mem_cons_self c a)
    have ha' : '\n' ∉ a := fun h => ha (List.mem_cons_of_mem _ h)
    simp only [List.cons_append, pySplitAux, if_neg hc]
    rw [show a.append ('\n' :: b) = a ++ '\n' :: b from rfl, ih ha']
    rfl

/-- No piece produced by the newline split contains a newline. -/
theorem pySplitAux_noNl : ∀ l : List Char, ∀ x ∈ pySplitAux l, '\n' ∉ x := by
  intro l
  induction l with
  | nil =>
    intro x hx
    simp only [pySplitAux, List.mem_singleton] at hx
    subst hx
    simp
  | cons c rest ih =>
    intro x hx
    simp only [pySplitAux] at hx
    by_cases hc : c = '\n'
    · rw [if_pos hc] at hx
      rcases List.mem_cons.mp hx with rfl | hin
      · simp
      · exact ih x hin
    · rw [if_neg hc] at hx
      rcases hrest : pySplitAux rest with _ | ⟨h, t⟩
      · exact absurd hrest (pySplitAux_ne_nil rest)
      · rw [hrest] at hx
        simp only [List.headI, List.tail] at hx
        rcases List.mem_cons.mp hx with rfl | hin
        · intro hmem
          rcases List.mem_cons.mp hmem with h1 | h2
          · exact hc h1.symm
          · exact ih h (hrest ▸ List.mem_cons_self h t) h2
        · exact ih x (hrest ▸ List.mem_cons_of_mem _ hin)

/-! ## SSE wire framing (app/services/sse.py, encode_sse_event) -/

/-- Payload of an SSE event: either a plain string or any other value, which
encode_sse_event serializes with json.dumps. -/
inductive SSEData where
  | str (s : String) : SSEData
  | json (j : JVal) : SSEData

/-- Block of data lines built by the for-loop of encode_sse_event (one
"data: " line per piece, each ending in a newline). -/
def dataLinesBlock : List String → String
  | [] => ""
  | line :: rest => "data: " ++ line ++ "\n" ++ dataLinesBlock rest

/-- Model of encode_sse_event: "event: " line, then for a string payload one
"data: " line per newline-separated piece (the loop over data.split), for any
other payload a single "data: " line holding the json.dumps rendering, then a
terminating blank line. -/
def encode_sse_event (data : SSEData) (event_type : String) : String :=
  "event: " ++ event_type ++ "\n" ++
    (match data with
     | .str s => dataLinesBlock (pySplitNl s)
     | .json j => "data: " ++ jsonDumps j ++ "\n") ++ "\n"

/-- The data lines an encoded event carries: the newline-split pieces of a
string payload, the single json.dumps rendering of a structured payload. -/
def sseDataLines : SSEData → List String
  | .str s => pySplitNl s
  | .json j => [jsonDumps j]

/-! ## Event channel (app/services/sse.py, SSEGenerator) -/

/-- State of an SSEGenerator: the queue contents (none is the closing
sentinel the close method enqueues) and the closed flag. -/
structure SSEGenerator where
  queue : List (Option String)
  closed : Bool

/-- The put method: enqueue only when the channel is not closed; a put on a
closed channel returns without touching the queue (and without raising). -/
def SSEGenerator.put (g : SSEGenerator) (data : String) : SSEGenerator :=
  if g.closed then g else { g with queue := g.queue ++ [some data] }

/-- The close method: set the closed flag and enqueue the sentinel that
unblocks a consumer waiting on the queue. -/
def SSEGenerator.close (g : SSEGenerator) : SSEGenerator :=
  { queue := g.queue ++ [none], closed := true }

/-- The items the iterator yields from given queue contents: it forwards
items until it dequeues the sentinel (None), where it breaks. -/
def iterOut : List (Option String) → List String
  | [] => []
  | none :: _ => []
  | some d :: rest => d :: iterOut rest

/-- Nothing enqueued after a sentinel is ever yielded: the iterator of a
closed channel ignores any later queue contents. -/
theorem iterOut_close_append (g : SSEGenerator) (extra : List (Option String)) :
    iterOut ((SSEGenerator.close g).queue ++ extra) = iterOut (SSEGenerator.close g).queue := by
  show iterOut ((g.queue ++ [none]) ++ extra) = iterOut (g.queue ++ [none])
  induction g.queue with
  | nil => rfl
  | cons x q ih =>
    cases x with
    | none => rfl
    | some d => simpa [iterOut] using ih

/-! ## Agent data model (app/services/langgraph_agent.py, app/models/document.py) -/

/-- The KnowledgeBaseType enum of app/models/document.py. -/
inductive KnowledgeBaseType where
  | RESUMES : KnowledgeBaseType
  | API_DOCS : KnowledgeBaseType
  | RECIPES : KnowledgeBaseType
  | SUPPLEMENTS : KnowledgeBaseType

/-- The string value of each KnowledgeBaseType member. -/
def KnowledgeBaseType.value : KnowledgeBaseType → String
  | .RESUMES => "resumes"
  | .API_DOCS => "api_docs"
  | .RECIPES => "recipes"
  | .SUPPLEMENTS => "supplements"

/-- One retrieved chunk as query_vector_store formats it: id, document text,
metadata dict and a relevance distance (held abstractly as a JSON value). -/
structure Chunk where
  id : String
  document : String
  metadata : JVal
  distance : Option JVal

/-- One parsed chunk as parser_node builds it: source id, original text,
model digest and the metadata carried over. -/
structure ParsedChunk where
  id : String
  original_text : String
  summary : String
  metadata : JVal

/-- The AgentState TypedDict: one run's state, threaded through the nodes. -/
structure AgentState where
  kb_type : String
  query : String
  document_id : Option String
  retrieved_chunks : List Chunk
  parsed_chunks : List ParsedChunk
  creative_output : Option String
  final_answer : Option String
  scraper_needed : Bool
  scraper_query : Option String

/-- Python truthiness of an Optional string: None and the empty string are
falsy. -/
def pyTruthyOptStr : Option String → Bool
  | none => false
  | some s => !(s == "")

/-- One language-model invocation: the system instruction and the human
content of the two messages passed to llm.ainvoke. -/
structure LLMCall where
  system : String
  human : String

/-- The language model as an external collaborator: a stateless map from one
call's messages to the response text (spec §6). -/
def LLM : Type := LLMCall → String

/-- The vector index as an external collaborator: query text, knowledge-base
name, result count and optional document-id filter to either the formatted
chunk list or a raised error (spec §6; query_vector_store propagates
exceptions from the index). -/
def VectorStore : Type := String → String → Nat → Option String → Except String (List Chunk)

/-- One structured record returned by the product scraper. -/
def Product : Type := JVal

/-- The scraper as an external collaborator: search_products_internal applied
to the state's scraper_query (an Optional string). -/
def Scraper : Type := Option String → List Product

/-! ## Node 1: retrieval_node -/

/-- Node 1 (retrieval_node): query the vector store for the top 5 chunks
(filtered to the document id when one is set), then set scraper_needed iff
the knowledge base is the supplements KB and fewer than 2 chunks came back,
and record the scraper query; the error of an unavailable index propagates.
The status events streamed over the callback do not touch the state and are
elided. -/
def retrieval_node (query_vector_store : VectorStore) (state : AgentState) :
    Except String AgentState :=
  let filter_dict : Option String :=
    if pyTruthyOptStr state.document_id then state.document_id else none
  match query_vector_store state.query state.kb_type 5 filter_dict with
  | .error e => .error e
  | .ok chunks =>
    let scraper_needed : Bool :=
      state.kb_type == KnowledgeBaseType.SUPPLEMENTS.value
        && (chunks.isEmpty || decide (chunks.length < 2))
    .ok { state with
          retrieved_chunks := chunks,
          scraper_needed := scraper_needed,
          scraper_query := if scraper_needed then some state.query else none }

/-! ## Node 2: scraper_tool_node -/

/-- Node 2 (scraper_tool_node): when scraper_needed is not set, return the
state unchanged; otherwise call the scraper with the stored scraper query.
When it returns at least one product, re-query the vector store (no filter)
and return the state with the fresh chunks and scraper_needed cleared; when
it returns nothing, return the state unchanged (the flag keeps its value). -/
def scraper_tool_node (search_products_internal : Scraper)
    (query_vector_store : VectorStore) (state : AgentState) :
    Except String AgentState :=
  if !state.scraper_needed then .ok state
  else
    let products := search_products_internal state.scraper_query
    if !products.isEmpty then
      match query_vector_store state.query state.kb_type 5 none with
      | .error e => .error e
      | .ok chunks =>
        .ok { state with retrieved_chunks := chunks, scraper_needed := false }
    else .ok state

/-! ## Node 3: parser_node -/

/-- The system prompt parser_node builds for every chunk. It is one fixed
f-string (no placeholders): the same instruction text whatever the run's
knowledge-base id. -/
def parserSystemPrompt : String :=
  "\n        You are an expert document parser and summarizer.\n        Your task is to analyze the provided text and extract key information.\n        \n        Based on the knowledge base type, focus on the following:\n        - For resumes: Extract skills, experience, education, and key qualifications.\n        - For API docs: Extract endpoints, parameters, authentication methods, and examples.\n        - For recipes: Extract ingredients, steps, nutritional info, and special tips.\n        - For supplements: Extract benefits, ingredients, usage instructions, and health claims.\n        \n        Return a concise summary with the most important information.\n        "

/-- The one model call parser_node makes for a chunk. -/
def parserCall (chunk : Chunk) : LLMCall :=
  { system := parserSystemPrompt,
    human := "Please analyze and summarize the following text:\n\n" ++ chunk.document }

/-- Node 3 (parser_node): with no retrieved chunks, return empty
parsed_chunks and make no model call; otherwise for each retrieved chunk in
order invoke the model once and collect id, original text, digest and
metadata. The returned pair is the updated state and the list of model calls
made, in order. -/
def parser_node (llm : LLM) (state : AgentState) : AgentState × List LLMCall :=
  if state.retrieved_chunks.isEmpty then
    ({ state with parsed_chunks := [] }, [])
  else
    let results := state.retrieved_chunks.map fun chunk =>
      let call := parserCall chunk
      (({ id := chunk.id, original_text := chunk.document,
          summary := llm call, metadata := chunk.metadata } : ParsedChunk), call)
    ({ state with parsed_chunks := results.map Prod.fst }, results.map Prod.snd)

/-! ## Node 4: creative_node -/

/-- The resumes persona of the creative node's system_prompts dict. -/
def resumesPrompt : String :=
  "\n        You are an expert HR consultant who matches resumes to job descriptions.\n        Analyze the resume information and the job query to provide detailed matching analysis.\n        Focus on relevant skills, experience, and qualifications that match or don't match the job requirements.\n        "

/-- The api_docs persona of the creative node's system_prompts dict. -/
def apiDocsPrompt : String :=
  "\n        You are an expert API documentation consultant.\n        Provide clear, accurate answers to questions about APIs based on the documentation.\n        Include code examples where relevant and explain parameters, endpoints and authentication methods.\n        "

/-- The recipes persona of the creative node's system_prompts dict. -/
def recipesPrompt : String :=
  "\n        You are a creative culinary expert.\n        Enhance recipes with suggestions, variations, and improvements.\n        Provide nutritional insights and answer cooking-related questions with practical advice.\n        "

/-- The supplements persona of the creative node's system_prompts dict, also
the dict's default for an unrecognized knowledge-base id. -/
def supplementsPrompt : String :=
  "\n        You are a wellness advisor specializing in supplements and health optimization.\n        Provide evidence-based advice about supplements, their ingredients, benefits, and usage.\n        For product bundles, explain synergies between products and personalize recommendations.\n        Always include appropriate health disclaimers and encourage consulting healthcare providers.\n        "

/-- The fixed evaluator instruction of the critique step. -/
def critiquePrompt : String :=
  "\n        You are an expert content evaluator. Critically examine the draft response and identify:\n        1. Factual inaccuracies or contradictions with the source material\n        2. Missing important information relevant to the query\n        3. Areas where clarity, coherence, or completeness could be improved\n        4. Potential bias or tone issues\n        \n        Be specific in your critique to guide improvements.\n        "

/-- system_prompts.get(kb_type, system_prompts[SUPPLEMENTS]): the persona
keyed by knowledge-base id, with the supplements persona as the fallback for
an unrecognized id. -/
def creativeSystemPrompt (kb_type : String) : String :=
  if kb_type == KnowledgeBaseType.RESUMES.value then resumesPrompt
  else if kb_type == KnowledgeBaseType.API_DOCS.value then apiDocsPrompt
  else if kb_type == KnowledgeBaseType.RECIPES.value then recipesPrompt
  else if kb_type == KnowledgeBaseType.SUPPLEMENTS.value then supplementsPrompt
  else supplementsPrompt

/-- The numbered-source context string the creative node accumulates over the
parsed chunks (the loop with enumerate starting at 1). -/
def creativeContextAux : Nat → List ParsedChunk → String
  | _, [] => ""
  | i, chunk :: rest =>
    "Source " ++ natRepr i ++ ":\n" ++ chunk.summary ++ "\n\n" ++ creativeContextAux (i + 1) rest

/-- Context built from parsed_chunks, numbered from 1. -/
def creativeContext (parsed : List ParsedChunk) : String := creativeContextAux 1 parsed

/-- Node 4 (creative_node): exactly three model calls in sequence — draft
with the persona prompt, critique of the draft with the fixed evaluator
prompt, refine with the persona prompt extended by the improve instruction —
then the refine output is stored as both creative_output and final_answer.
The returned pair is the updated state and the list of model calls made, in
order. -/
def creative_node (llm : LLM) (state : AgentState) : AgentState × List LLMCall :=
  let query := state.query
  let context := creativeContext state.parsed_chunks
  let system_prompt := creativeSystemPrompt state.kb_type
  let draftCall : LLMCall :=
    { system := system_prompt,
      human := "Context information:\n\n" ++ context ++ "\n\nQuery: " ++ query ++
        "\n\nPlease provide a comprehensive response." }
  let draft := llm draftCall
  let critiqueCall : LLMCall :=
    { system := critiquePrompt,
      human := "Original query: " ++ query ++ "\n\nContext information:\n" ++ context ++
        "\n\nDraft response:\n" ++ draft }
  let critique := llm critiqueCall
  let refineCall : LLMCall :=
    { system := system_prompt ++ "\n\nImprove the draft based on the critique provided.",
      human := "Original query: " ++ query ++ "\n\nContext information:\n" ++ context ++
        "\n\nDraft response:\n" ++ draft ++ "\n\nCritique:\n" ++ critique ++
        "\n\nPlease provide an improved version that addresses the critique." }
  let refined_output := llm refineCall
  ({ state with creative_output := some refined_output, final_answer := some refined_output },
   [draftCall, critiqueCall, refineCall])

/-! ## The graph (build_agent_graph): nodes, conditional edges, execution -/

/-- The nodes of the LangGraph workflow, plus the END sentinel. -/
inductive Node where
  | retrieval : Node
  | scraper_tool : Node
  | parser : Node
  | creative : Node
  | END : Node
deriving DecidableEq, Repr

/-- The conditional edge leaving the retrieval node. -/
def routeAfterRetrieval (state : AgentState) : Node :=
  if state.scraper_needed then .scraper_tool
  else if !state.retrieved_chunks.isEmpty && state.parsed_chunks.isEmpty then .parser
  else if !state.parsed_chunks.isEmpty && !pyTruthyOptStr state.final_answer then .creative
  else .END

/-- The conditional edge leaving the scraper tool node. -/
def routeAfterScraper (state : AgentState) : Node :=
  if !state.retrieved_chunks.isEmpty && state.parsed_chunks.isEmpty then .parser
  else if !state.parsed_chunks.isEmpty && !pyTruthyOptStr state.final_answer then .creative
  else .END

/-- The conditional edge leaving the parser node. -/
def routeAfterParser (state : AgentState) : Node :=
  if !state.parsed_chunks.isEmpty && !pyTruthyOptStr state.final_answer then .creative
  else .END

/-- The complete transition table of the workflow: the three conditional
edges, the fixed creative → END edge, and END absorbing. -/
def route : Node → AgentState → Node
  | .retrieval, s => routeAfterRetrieval s
  | .scraper_tool, s => routeAfterScraper s
  | .parser, s => routeAfterParser s
  | .creative, _ => .END
  | .END, _ => .END

/-- Execution of one node's body on the state. -/
def execNode (store : VectorStore) (scraper : Scraper) (llm : LLM) :
    Node → AgentState → Except String AgentState
  | .retrieval, s => retrieval_node store s
  | .scraper_tool, s => scraper_tool_node scraper store s
  | .parser, s => .ok (parser_node llm s).1
  | .creative, s => .ok (creative_node llm s).1
  | .END, s => .ok s

/-- Fueled execution of the graph from a node: runs the node, follows the
transition table, and records the sequence of nodes executed. An exception
in a node aborts the run with that node last in the trace. -/
def runSteps (store : VectorStore) (scraper : Scraper) (llm : LLM) :
    Nat → Node → AgentState → List Node × Except String AgentState
  | 0, _, s => ([], .ok s)
  | _ + 1, .END, s => ([], .ok s)
  | fuel + 1, n, s =>
    match execNode store scraper llm n s with
    | .error e => ([n], .error e)
    | .ok s1 =>
      let rest := runSteps store scraper llm fuel (route n s1) s1
      (n :: rest.1, rest.2)

/-- One run of the compiled graph: start at the retrieval entry point with
fuel that the longest path (4 nodes) can never exhaust. -/
def run_graph (store : VectorStore) (scraper : Scraper) (llm : LLM) (state : AgentState) :
    List Node × Except String AgentState :=
  runSteps store scraper llm 8 .retrieval state

/-! ## run_agent with its catch-all mock fallback -/

/-- The initial AgentState run_agent builds: all derived fields empty. -/
def initial_state (query kb_type : String) (document_id : Option String) : AgentState :=
  { kb_type := kb_type, query := query, document_id := document_id,
    retrieved_chunks := [], parsed_chunks := [], creative_output := none,
    final_answer := none, scraper_needed := false, scraper_query := none }

/-- Python substring membership: needle in haystack. -/
def pyContains (haystack needle : String) : Bool :=
  haystack.data.tails.any fun t => needle.data.isPrefixOf t

/-- Python str.lower, character by character. -/
def pyLower (s : String) : String := ⟨s.data.map Char.toLower⟩

/-- The answer-type keyword heuristic of run_agent's fallback: experience,
then education, defaulting to skills. -/
def mockAnswerType (query : String) : String :=
  if ["experience", "work", "history"].any (fun k => pyContains (pyLower query) k) then
    "experience"
  else if ["education", "degree", "university"].any (fun k => pyContains (pyLower query) k) then
    "education"
  else "skills"

/-- The mock_answers table of run_agent's fallback branch, as the lookup
mock_answers.get(kb_type, ...).get(answer_type, ...). -/
def mock_answers (kb_type answer_type : String) : Option String :=
  if kb_type == "resumes" then
    if answer_type == "skills" then
      some "The candidate possesses strong skills in Python, JavaScript, and SQL. They also demonstrate proficiency in data analysis, project management, and communication."
    else if answer_type == "experience" then
      some "The candidate has 5+ years of experience in software development, with specific expertise in web application development and database management."
    else if answer_type == "education" then
      some "The candidate holds a Bachelor's degree in Computer Science from a reputable university, along with several professional certifications in their field."
    else none
  else if kb_type == "supplements" then
    if answer_type == "benefits" then
      some "This supplement offers several benefits including improved immune function, increased energy levels, and support for cognitive health. It's designed to fill nutritional gaps in your diet."
    else if answer_type == "ingredients" then
      some "The key ingredients in this supplement include Vitamin C, Zinc, Magnesium, B-complex vitamins, and a proprietary herbal blend for enhanced absorption."
    else if answer_type == "usage" then
      some "For optimal results, take 2 capsules daily with food. It's recommended to use consistently for at least 30 days to experience the full benefits."
    else none
  else if kb_type == "api_docs" then
    if answer_type == "endpoints" then
      some "The API provides several endpoints including /users, /products, and /orders. Each endpoint supports standard HTTP methods like GET, POST, PUT, and DELETE."
    else if answer_type == "authentication" then
      some "Authentication is handled through JWT tokens. You need to first obtain a token via the /auth endpoint and then include it in the Authorization header for subsequent requests."
    else if answer_type == "examples" then
      some "Example usage: `curl -H 'Authorization: Bearer TOKEN' https://api.example.com/users` to retrieve user information."
    else none
  else if kb_type == "recipes" then
    if answer_type == "ingredients" then
      some "The main ingredients in this recipe are flour, sugar, eggs, butter, and vanilla extract. It also includes optional ingredients like chocolate chips or nuts for added flavor."
    else if answer_type == "steps" then
      some "This recipe involves several steps: mixing the dry ingredients, creaming the butter and sugar, adding eggs one at a time, combining everything, and baking at 350°F for 25-30 minutes."
    else if answer_type == "detail" then
      some "This is a classic cookie recipe that yields about 24 cookies. The texture is crisp on the outside and chewy on the inside. Perfect for family gatherings or dessert time."
    else none
  else none

/-- The answer run_agent's fallback produces: table lookup with the f-string
default. -/
def mock_answer (query kb_type : String) : String :=
  match mock_answers kb_type (mockAnswerType query) with
  | some answer => answer
  | none =>
    "Based on the document in the " ++ kb_type ++
      " knowledge base, I can provide information about your query: '" ++ query ++
      "'. This is a mock response."

/-- The structured fallback result run_agent returns when any exception was
raised: a normal-shaped state with empty chunks and the mock text as both
creative_output and final_answer (no error marker of any kind). -/
def mock_result (query kb_type : String) (document_id : Option String) : AgentState :=
  { kb_type := kb_type, query := query, document_id := document_id,
    retrieved_chunks := [], parsed_chunks := [],
    creative_output := some (mock_answer query kb_type),
    final_answer := some (mock_answer query kb_type),
    scraper_needed := false, scraper_query := none }

/-- run_agent: build the graph, run it from the fresh initial state, and on
any exception swallow it and return the mock fallback result. -/
def run_agent (store : VectorStore) (scraper : Scraper) (llm : LLM)
    (query kb_type : String) (document_id : Option String) : AgentState :=
  match (run_graph store scraper llm (initial_state query kb_type document_id)).2 with
  | .ok result => result
  | .error _ => mock_result query kb_type document_id

/-! ## Theorems about the event channel -/

/-- C6: once an SSEGenerator is closed, put enqueues nothing (and, being a
total function of the state, raises nothing); close appends the None
sentinel to the queue and sets the closed flag, so a consumer blocked on the
queue receives the sentinel and the iterator breaks; and nothing a producer
sends after the close is ever yielded — its output is silently discarded. -/
theorem C6_channel_close (g : SSEGenerator) (d : String) (extra : List (Option String)) :
    (g.closed = true → g.put d = g)
    ∧ (g.close).queue = g.queue ++ [none]
    ∧ (g.close).closed = true
    ∧ iterOut ((g.close).queue ++ extra) = iterOut (g.close).queue
    ∧ (g.close).put d = g.close := by
  refine ⟨fun h => ?_, rfl, rfl, iterOut_close_append g extra, ?_⟩
  · simp [SSEGenerator.put, h]
  · simp [SSEGenerator.put, SSEGenerator.close]

/-- C6 witness: the closed-channel behavior at a concrete channel holding
one item. -/
theorem C6_channel_close_witness :
    (({ queue := [some "a"], closed := true } : SSEGenerator).closed = true →
      ({ queue := [some "a"], closed := true } : SSEGenerator).put "b" =
        { queue := [some "a"], closed := true })
    ∧ (({ queue := [some "a"], closed := true } : SSEGenerator).close).queue =
        [some "a"] ++ [none]
    ∧ (({ queue := [some "a"], closed := true } : SSEGenerator).close).closed = true
    ∧ iterOut ((({ queue := [some "a"], closed := true } : SSEGenerator).close).queue ++
        [some "late"]) =
        iterOut (({ queue := [some "a"], closed := true } : SSEGenerator).close).queue
    ∧ (({ queue := [some "a"], closed := true } : SSEGenerator).close).put "b" =
        ({ queue := [some "a"], closed := true } : SSEGenerator).close :=
  C6_channel_close { queue := [some "a"], closed := true } "b" [some "late"]

/-! ## Theorems about the synthesis step (creative_node) -/

/-- C3: every execution of the synthesis step performs exactly 3 model
invocations — recorded in order as draft, critique, refine — whatever the
critique text turns out to be: the critique call's content embeds the draft
response, the refine call's content embeds both the draft and the critique
responses, and the refine response is written verbatim to both
creative_output and final_answer. -/
theorem C3_creative_three_calls (llm : LLM) (state : AgentState) :
    ∃ d c r : LLMCall,
      (creative_node llm state).2 = [d, c, r]
      ∧ d.system = creativeSystemPrompt state.kb_type
      ∧ c.system = critiquePrompt
      ∧ r.system = creativeSystemPrompt state.kb_type ++
          "\n\nImprove the draft based on the critique provided."
      ∧ (∃ pre, c.human = pre ++ llm d)
      ∧ (∃ pre mid post, r.human = pre ++ llm d ++ mid ++ llm c ++ post)
      ∧ (creative_node llm state).1.creative_output = some (llm r)
      ∧ (creative_node llm state).1.final_answer = some (llm r) := by
  refine ⟨_, _, _, rfl, rfl, rfl, rfl, ⟨_, rfl⟩, ⟨_, _, _, rfl⟩, rfl, rfl⟩

/-! ## Theorems about the summarization step (parser_node) -/

/-- C4: summarization output matches input pointwise: as many parsed chunks
as retrieved chunks, the i-th parsed chunk carries the i-th retrieved
chunk's id, original text, model digest and metadata, the model calls are
one per chunk in input order, and the empty input yields the empty output
with no model call at all. -/
theorem C4_parser_pointwise (llm : LLM) (state : AgentState) :
    (parser_node llm state).1.parsed_chunks.length = state.retrieved_chunks.length
    ∧ (∀ i : Nat,
        ((parser_node llm state).1.parsed_chunks[i]? : Option ParsedChunk) =
          (state.retrieved_chunks[i]?).map fun chunk =>
            { id := chunk.id, original_text := chunk.document,
              summary := llm (parserCall chunk), metadata := chunk.metadata })
    ∧ (parser_node llm state).2 = state.retrieved_chunks.map parserCall
    ∧ (state.retrieved_chunks = [] → (parser_node llm state).2 = []) := by
  by_cases hE : state.retrieved_chunks.isEmpty
  · have hnil : state.retrieved_chunks = [] := List.isEmpty_iff.mp hE
    refine ⟨?_, ?_, ?_, fun _ => ?_⟩ <;>
      simp [parser_node, hE, hnil]
  · refine ⟨?_, fun i => ?_, ?_, fun hnil => absurd (List.isEmpty_iff.mpr hnil) hE⟩ <;>
      simp [parser_node, hE, List.map_map, List.getElem?_map]
    rfl

/-! ## Theorems about the frame of each node -/

/-- C10: every node preserves the run-identity fields kb_type, query and
document_id, and touches only its designated outputs: retrieval leaves
parsed_chunks, creative_output and final_answer alone; the scraper node
additionally leaves scraper_query alone; parser changes only parsed_chunks;
creative changes only creative_output and final_answer. -/
theorem C10_nodes_frame (store : VectorStore) (scraper : Scraper) (llm : LLM) :
    (∀ s s1, retrieval_node store s = .ok s1 →
      s1.kb_type = s.kb_type ∧ s1.query = s.query ∧ s1.document_id = s.document_id
      ∧ s1.parsed_chunks = s.parsed_chunks ∧ s1.creative_output = s.creative_output
      ∧ s1.final_answer = s.final_answer)
    ∧ (∀ s s1, scraper_tool_node scraper store s = .ok s1 →
      s1.kb_type = s.kb_type ∧ s1.query = s.query ∧ s1.document_id = s.document_id
      ∧ s1.parsed_chunks = s.parsed_chunks ∧ s1.creative_output = s.creative_output
      ∧ s1.final_answer = s.final_answer ∧ s1.scraper_query = s.scraper_query)
    ∧ (∀ s, (parser_node llm s).1.kb_type = s.kb_type
      ∧ (parser_node llm s).1.query = s.query
      ∧ (parser_node llm s).1.document_id = s.document_id
      ∧ (parser_node llm s).1.retrieved_chunks = s.retrieved_chunks
      ∧ (parser_node llm s).1.creative_output = s.creative_output
      ∧ (parser_node llm s).1.final_answer = s.final_answer
      ∧ (parser_node llm s).1.scraper_needed = s.scraper_needed
      ∧ (parser_node llm s).1.scraper_query = s.scraper_query)
    ∧ (∀ s, (creative_node llm s).1.kb_type = s.kb_type
      ∧ (creative_node llm s).1.query = s.query
      ∧ (creative_node llm s).1.document_id = s.document_id
      ∧ (creative_node llm s).1.retrieved_chunks = s.retrieved_chunks
      ∧ (creative_node llm s).1.parsed_chunks = s.parsed_chunks
      ∧ (creative_node llm s).1.scraper_needed = s.scraper_needed
      ∧ (creative_node llm s).1.scraper_query = s.scraper_query) := by
  refine ⟨fun s s1 h => ?_, fun s s1 h => ?_, fun s => ?_, fun s => ?_⟩
  · simp only [retrieval_node] at h
    rcases hq : store s.query s.kb_type 5
        (if pyTruthyOptStr s.document_id then s.document_id else none) with e | chunks <;>
      rw [hq] at h
    · cases h
    · rw [Except.ok.injEq] at h
      subst h
      simp
  · simp only [scraper_tool_node] at h
    by_cases hn : !s.scraper_needed
    · rw [if_pos hn] at h
      rw [Except.ok.injEq] at h
      subst h
      simp
    · rw [if_neg hn] at h
      by_cases hp : !(scraper s.scraper_query).isEmpty
      · rw [if_pos hp] at h
        rcases hq : store s.query s.kb_type 5 none with e | chunks <;> rw [hq] at h
        · cases h
        · rw [Except.ok.injEq] at h
          subst h
          simp
      · rw [if_neg hp] at h
        rw [Except.ok.injEq] at h
        subst h
        simp
  · by_cases hE : s.retrieved_chunks.isEmpty <;> simp [parser_node, hE]
  · simp [creative_node]

/-- C10 witness: the frame conditions applied at a concrete store, scraper,
model and state. -/
theorem C10_nodes_frame_witness :
    ((parser_node (fun _ => "digest") (initial_state "q" "resumes" none)).1.kb_type =
      (initial_state "q" "resumes" none).kb_type)
    ∧ retrieval_node (fun _ _ _ _ => .ok []) (initial_state "q" "resumes" none) =
        .ok (initial_state "q" "resumes" none) := by
  constructor
  · exact ((C10_nodes_frame (fun _ _ _ _ => .ok []) (fun _ => []) (fun _ => "digest")).2.2.1
      (initial_state "q" "resumes" none)).1
  · rfl

/-! ## Structure of the transition table -/

/-- No edge of the transition table leads back to the retrieval entry
point. -/
theorem route_ne_retrieval (n : Node) (s : AgentState) : route n s ≠ .retrieval := by
  cases n <;>
    simp only [route, routeAfterRetrieval, routeAfterScraper, routeAfterParser] <;>
    (repeat' split) <;> simp

/-- The only edge into the scraper tool node leaves the retrieval node, and
it is taken exactly when the scraper_needed flag is set. -/
theorem route_scraper_src (n : Node) (s : AgentState)
    (h : route n s = .scraper_tool) : n = .retrieval ∧ s.scraper_needed = true := by
  cases n <;>
    revert h <;>
    simp only [route, routeAfterRetrieval, routeAfterScraper, routeAfterParser] <;>
    (repeat' split) <;> simp_all

/-- Started anywhere past the scraper tool node, an execution never reaches
the scraper tool node (nor retrieval). -/
theorem runSteps_no_scraper (store : VectorStore) (scraper : Scraper) (llm : LLM) :
    ∀ (fuel : Nat) (n : Node) (s : AgentState), n ≠ .retrieval → n ≠ .scraper_tool →
      Node.scraper_tool ∉ (runSteps store scraper llm fuel n s).1 := by
  intro fuel
  induction fuel with
  | zero => intro n s _ _; simp [runSteps]
  | succ fuel ih =>
    intro n s h1 h2
    match n with
    | .END => simp [runSteps]
    | .parser =>
      simp only [runSteps]
      rcases hE : execNode store scraper llm .parser s with e | s1 <;> simp only [hE]
      · simp
      · intro hmem
        rcases List.mem_cons.mp hmem with heq | hin
        · exact absurd heq.symm (by simp)
        · exact ih (route .parser s1) s1 (route_ne_retrieval _ s1)
            (fun hsc => by cases (route_scraper_src _ s1 hsc).1) hin
    | .creative =>
      simp only [runSteps]
      rcases hE : execNode store scraper llm .creative s with e | s1 <;> simp only [hE]
      · simp
      · intro hmem
        rcases List.mem_cons.mp hmem with heq | hin
        · exact absurd heq.symm (by simp)
        · exact ih (route .creative s1) s1 (route_ne_retrieval _ s1)
            (fun hsc => by cases (route_scraper_src _ s1 hsc).1) hin

/-- In any execution of the graph, from any start node, the scraper tool
node appears at most once in the trace. -/
theorem runSteps_scraper_once (store : VectorStore) (scraper : Scraper) (llm : LLM) :
    ∀ (fuel : Nat) (n : Node) (s : AgentState),
      ((runSteps store scraper llm fuel n s).1.count Node.scraper_tool) ≤ 1 := by
  intro fuel
  induction fuel with
  | zero => intro n s; simp [runSteps]
  | succ fuel ih =>
    intro n s
    match n with
    | .END => simp [runSteps]
    | .retrieval =>
      simp only [runSteps]
      rcases hE : execNode store scraper llm .retrieval s with e | s1 <;> simp only [hE]
      · simp [List.count_cons]
      · rw [List.count_cons]
        simpa [show (Node.retrieval == Node.scraper_tool) = false from rfl] using
          ih (route .retrieval s1) s1
    | .parser =>
      simp only [runSteps]
      rcases hE : execNode store scraper llm .parser s with e | s1 <;> simp only [hE]
      · simp [List.count_cons]
      · rw [List.count_cons]
        simpa [show (Node.parser == Node.scraper_tool) = false from rfl] using
          ih (route .parser s1) s1
    | .creative =>
      simp only [runSteps]
      rcases hE : execNode store scraper llm .creative s with e | s1 <;> simp only [hE]
      · simp [List.count_cons]
      · rw [List.count_cons]
        simpa [show (Node.creative == Node.scraper_tool) = false from rfl] using
          ih (route .creative s1) s1
    | .scraper_tool =>
      simp only [runSteps]
      rcases hE : execNode store scraper llm .scraper_tool s with e | s1 <;> simp only [hE]
      · simp [List.count_cons]
      · rw [List.count_cons]
        have hnot : Node.scraper_tool ∉ (runSteps store scraper llm fuel
            (route .scraper_tool s1) s1).1 := by
          apply runSteps_no_scraper
          · exact route_ne_retrieval _ s1
          · intro hsc
            cases (route_scraper_src _ s1 hsc).1
        rw [List.count_eq_zero_of_not_mem hnot]
        simp

/-- Unfolding of one execution step at a non-END node. -/
theorem runSteps_step (store : VectorStore) (scraper : Scraper) (llm : LLM)
    (fuel : Nat) (n : Node) (s : AgentState) (hn : n ≠ .END) :
    runSteps store scraper llm (fuel + 1) n s =
      match execNode store scraper llm n s with
      | .error e => ([n], .error e)
      | .ok s1 =>
        (n :: (runSteps store scraper llm fuel (route n s1) s1).1,
         (runSteps store scraper llm fuel (route n s1) s1).2) := by
  cases n with
  | END => exact absurd rfl hn
  | retrieval => rfl
  | scraper_tool => rfl
  | parser => rfl
  | creative => rfl

/-- At END the execution stops with the state unchanged. -/
theorem runSteps_end (store : VectorStore) (scraper : Scraper) (llm : LLM)
    (fuel : Nat) (s : AgentState) :
    runSteps store scraper llm fuel .END s = ([], .ok s) := by
  cases fuel <;> rfl

/-! ## Theorems about the retrieval step and augmentation routing -/

/-- C1: after retrieval, scraper_needed is true iff the knowledge base is
the supplements (product) KB and fewer than 2 chunks were retrieved; and
whenever retrieval returns at least 2 chunks or the KB is not the
supplements KB, the flag is false and the whole run never enters the
augmentation (scraper tool) node. -/
theorem C1_augmentation_flag (store : VectorStore) (scraper : Scraper) (llm : LLM)
    (query kb_type : String) (document_id : Option String) (chunks : List Chunk)
    (hstore : store query kb_type 5
      (if pyTruthyOptStr document_id then document_id else none) = .ok chunks) :
    (∃ s1, retrieval_node store (initial_state query kb_type document_id) = .ok s1
      ∧ (s1.scraper_needed = true ↔
          (kb_type = KnowledgeBaseType.SUPPLEMENTS.value ∧ chunks.length < 2)))
    ∧ ((2 ≤ chunks.length ∨ kb_type ≠ KnowledgeBaseType.SUPPLEMENTS.value) →
        Node.scraper_tool ∉
          (run_graph store scraper llm (initial_state query kb_type document_id)).1) := by
  have hret : retrieval_node store (initial_state query kb_type document_id) =
      .ok { initial_state query kb_type document_id with
            retrieved_chunks := chunks,
            scraper_needed := kb_type == KnowledgeBaseType.SUPPLEMENTS.value
              && (chunks.isEmpty || decide (chunks.length < 2)),
            scraper_query :=
              if kb_type == KnowledgeBaseType.SUPPLEMENTS.value
                  && (chunks.isEmpty || decide (chunks.length < 2)) then some query
              else none } := by
    simp only [retrieval_node, initial_state]
    rw [hstore]
  have hflag : (kb_type == KnowledgeBaseType.SUPPLEMENTS.value
      && (chunks.isEmpty || decide (chunks.length < 2))) = true ↔
      (kb_type = KnowledgeBaseType.SUPPLEMENTS.value ∧ chunks.length < 2) := by
    simp only [Bool.and_eq_true, beq_iff_eq, Bool.or_eq_true, decide_eq_true_eq,
      List.isEmpty_iff]
    constructor
    · rintro ⟨h1, h2 | h2⟩
      · exact ⟨h1, by simp [h2]⟩
      · exact ⟨h1, h2⟩
    · rintro ⟨h1, h2⟩
      exact ⟨h1, Or.inr h2⟩
  refine ⟨⟨_, hret, hflag⟩, fun hside => ?_⟩
  have hff : (kb_type == KnowledgeBaseType.SUPPLEMENTS.value
      && (chunks.isEmpty || decide (chunks.length < 2))) = false := by
    rcases Bool.eq_false_or_eq_true (kb_type == KnowledgeBaseType.SUPPLEMENTS.value
      && (chunks.isEmpty || decide (chunks.length < 2))) with h | h
    · rcases hflag.mp h with ⟨h1, h2⟩
      rcases hside with h3 | h3
      · omega
      · exact absurd h1 h3
    · exact h
  rw [run_graph, show (8 : Nat) = 7 + 1 from rfl,
    runSteps_step store scraper llm 7 .retrieval _ (by simp)]
  simp only [execNode]
  rw [hret]
  simp only []
  intro hmem
  rcases List.mem_cons.mp hmem with heq | hin
  · cases heq
  · revert hin
    apply runSteps_no_scraper
    · exact route_ne_retrieval _ _
    · intro hsc
      have := (route_scraper_src _ _ hsc).2
      simp only [hff] at this
      cases this

/-- C1 witness: a resumes-KB store returning two chunks — the flag computes
to false and the run trace holds no scraper tool node. -/
theorem C1_augmentation_flag_witness :
    (∃ s1, retrieval_node
        (fun _ _ _ _ => .ok [{ id := "c1", document := "d1", metadata := .null, distance := none },
          { id := "c2", document := "d2", metadata := .null, distance := none }])
        (initial_state "q" "resumes" none) = .ok s1
      ∧ (s1.scraper_needed = true ↔
          ("resumes" = KnowledgeBaseType.SUPPLEMENTS.value ∧
            ([{ id := "c1", document := "d1", metadata := (.null : JVal), distance := none },
              { id := "c2", document := "d2", metadata := .null, distance := none }] :
                List Chunk).length < 2)))
    ∧ ((2 ≤ ([{ id := "c1", document := "d1", metadata := (.null : JVal), distance := none },
          { id := "c2", document := "d2", metadata := .null, distance := none }] :
            List Chunk).length ∨ "resumes" ≠ KnowledgeBaseType.SUPPLEMENTS.value) →
        Node.scraper_tool ∉
          (run_graph
            (fun _ _ _ _ => .ok [{ id := "c1", document := "d1", metadata := .null, distance := none },
              { id := "c2", document := "d2", metadata := .null, distance := none }])
            (fun _ => []) (fun _ => "ans") (initial_state "q" "resumes" none)).1) :=
  C1_augmentation_flag _ (fun _ => []) (fun _ => "ans") "q" "resumes" none _ rfl

/-! ## Theorems about the zero-chunk run -/

/-- A vector store whose every query succeeds with zero chunks. -/
def emptyStore : VectorStore := fun _ _ _ _ => .ok []

/-- A scraper that finds no products. -/
def emptyScraper : Scraper := fun _ => []

/-- A language model returning a fixed answer. -/
def answerLLM : LLM := fun _ => "ans"

/-- C2 counterexample: with retrieval returning 0 chunks on the resumes KB,
the run is indeed not in error, but the trace shows the pipeline skips the
summarization (parser) and synthesis (creative) steps entirely — the
transition table routes straight to END — and the terminal state's
final_answer is None, not a populated answer, contrary to the claim. -/
theorem C2_zero_chunk_counterexample :
    (run_graph emptyStore emptyScraper answerLLM
        (initial_state "What skills does the candidate have?" "resumes" none)).1 =
      [Node.retrieval]
    ∧ (run_graph emptyStore emptyScraper answerLLM
        (initial_state "What skills does the candidate have?" "resumes" none)).2 =
      .ok (initial_state "What skills does the candidate have?" "resumes" none)
    ∧ Node.parser ∉ (run_graph emptyStore emptyScraper answerLLM
        (initial_state "What skills does the candidate have?" "resumes" none)).1
    ∧ Node.creative ∉ (run_graph emptyStore emptyScraper answerLLM
        (initial_state "What skills does the candidate have?" "resumes" none)).1
    ∧ (initial_state "What skills does the candidate have?" "resumes" none).final_answer
        = none := by
  refine ⟨rfl, rfl, by decide, by decide, rfl⟩

/-- C2 as amended: a run whose retrieval returns 0 chunks (and whose
augmentation, if entered, yields no new items) terminates without error —
the graph result is ok — but it does so by skipping the summarization and
synthesis nodes altogether, and the terminal state's final_answer remains
None rather than being populated. -/
theorem C2_zero_chunk_amended (store : VectorStore) (scraper : Scraper) (llm : LLM)
    (query kb_type : String) (document_id : Option String)
    (hstore : ∀ qt kn n f, store qt kn n f = .ok [])
    (hscraper : ∀ oq, scraper oq = []) :
    ∃ sF, (run_graph store scraper llm (initial_state query kb_type document_id)).2 = .ok sF
      ∧ sF.final_answer = none
      ∧ sF.parsed_chunks = []
      ∧ sF.retrieved_chunks = []
      ∧ Node.parser ∉ (run_graph store scraper llm (initial_state query kb_type document_id)).1
      ∧ Node.creative ∉
          (run_graph store scraper llm (initial_state query kb_type document_id)).1 := by
  rcases Bool.eq_false_or_eq_true (kb_type == KnowledgeBaseType.SUPPLEMENTS.value)
    with hkb | hkb
  case _ =>
    -- supplements KB: the scraper tool is entered, finds nothing, and the
    -- run still routes to END with the state unchanged
    have h1 : retrieval_node store (initial_state query kb_type document_id) =
        .ok { kb_type := kb_type, query := query, document_id := document_id,
              retrieved_chunks := [], parsed_chunks := [], creative_output := none,
              final_answer := none, scraper_needed := true,
              scraper_query := some query } := by
      simp only [retrieval_node, initial_state]
      rw [hstore]
      simp [hkb]
    have h2 : scraper_tool_node scraper store
        { kb_type := kb_type, query := query, document_id := document_id,
          retrieved_chunks := [], parsed_chunks := [], creative_output := none,
          final_answer := none, scraper_needed := true, scraper_query := some query } =
        .ok { kb_type := kb_type, query := query, document_id := document_id,
              retrieved_chunks := [], parsed_chunks := [], creative_output := none,
              final_answer := none, scraper_needed := true,
              scraper_query := some query } := by
      simp [scraper_tool_node, hscraper]
    rw [run_graph, show (8 : Nat) = 7 + 1 from rfl,
      runSteps_step store scraper llm 7 .retrieval _ (by simp)]
    simp only [execNode]
    rw [h1]
    simp only []
    rw [show route .retrieval
        { kb_type := kb_type, query := query, document_id := document_id,
          retrieved_chunks := [], parsed_chunks := [], creative_output := none,
          final_answer := none, scraper_needed := true, scraper_query := some query } =
        .scraper_tool from by simp [route, routeAfterRetrieval]]
    rw [show (7 : Nat) = 6 + 1 from rfl,
      runSteps_step store scraper llm 6 .scraper_tool _ (by simp)]
    simp only [execNode]
    rw [h2]
    simp only []
    rw [show route .scraper_tool
        { kb_type := kb_type, query := query, document_id := document_id,
          retrieved_chunks := [], parsed_chunks := [], creative_output := none,
          final_answer := none, scraper_needed := true, scraper_query := some query } =
        .END from by simp [route, routeAfterScraper], runSteps_end]
    exact ⟨_, rfl, rfl, rfl, rfl, by simp, by simp⟩
  case _ =>
    -- non-product KB: the flag is false and retrieval routes straight to END
    have h1 : retrieval_node store (initial_state query kb_type document_id) =
        .ok (initial_state query kb_type document_id) := by
      simp only [retrieval_node, initial_state]
      rw [hstore]
      simp [hkb]
    rw [run_graph, show (8 : Nat) = 7 + 1 from rfl,
      runSteps_step store scraper llm 7 .retrieval _ (by simp)]
    simp only [execNode]
    rw [h1]
    simp only []
    rw [show route .retrieval (initial_state query kb_type document_id) = .END from by
      simp [route, routeAfterRetrieval, initial_state], runSteps_end]
    exact ⟨_, rfl, rfl, rfl, rfl, by simp, by simp⟩

/-- C2 amended witness: the zero-chunk run at concrete oracles on the
supplements KB. -/
theorem C2_zero_chunk_amended_witness :
    ∃ sF, (run_graph emptyStore emptyScraper answerLLM
        (initial_state "magnesium?" "supplements" none)).2 = .ok sF
      ∧ sF.final_answer = none
      ∧ sF.parsed_chunks = []
      ∧ sF.retrieved_chunks = []
      ∧ Node.parser ∉ (run_graph emptyStore emptyScraper answerLLM
          (initial_state "magnesium?" "supplements" none)).1
      ∧ Node.creative ∉ (run_graph emptyStore emptyScraper answerLLM
          (initial_state "magnesium?" "supplements" none)).1 :=
  C2_zero_chunk_amended emptyStore emptyScraper answerLLM "magnesium?" "supplements" none
    (fun _ _ _ _ => rfl) (fun _ => rfl)

/-! ## Theorems about the augmentation step -/

/-- A supplements-KB state whose retrieval found nothing, with the
augmentation flag set, as retrieval_node leaves it. -/
def needyState : AgentState :=
  { kb_type := "supplements", query := "vitamin d", document_id := none,
    retrieved_chunks := [], parsed_chunks := [], creative_output := none,
    final_answer := none, scraper_needed := true, scraper_query := some "vitamin d" }

/-- C5 counterexample: when the scraper returns no new items, the scraper
tool node returns the state completely unchanged — the scraper_needed flag
is NOT cleared on this exit (it stays true), contrary to the claim that the
flag is cleared on every exit including the no-new-items case. -/
theorem C5_flag_counterexample :
    scraper_tool_node emptyScraper emptyStore needyState = .ok needyState
    ∧ needyState.scraper_needed = true := ⟨rfl, rfl⟩

/-- C5 as amended: the augmentation node is executed at most once per run —
enforced by the transition table, which has no edge back into it, not by
flag clearing — and the flag is cleared on exit only when the scraper
returns at least one item (and the re-query succeeds); when the scraper
returns no items the state, flag included, is returned unchanged. -/
theorem C5_at_most_once_amended (store : VectorStore) (scraper : Scraper) (llm : LLM) :
    (∀ s0, ((run_graph store scraper llm s0).1.count Node.scraper_tool) ≤ 1)
    ∧ (∀ s chunks, s.scraper_needed = true →
        (scraper s.scraper_query).isEmpty = false →
        store s.query s.kb_type 5 none = .ok chunks →
        scraper_tool_node scraper store s =
          .ok { s with retrieved_chunks := chunks, scraper_needed := false })
    ∧ (∀ s, scraper s.scraper_query = [] → scraper_tool_node scraper store s = .ok s) := by
  refine ⟨fun s0 => runSteps_scraper_once store scraper llm 8 .retrieval s0,
    fun s chunks hneed hprod hq => ?_, fun s hprod => ?_⟩
  · simp only [scraper_tool_node, hneed, hprod]
    rw [hq]
    simp
  · rcases Bool.eq_false_or_eq_true s.scraper_needed with hneed | hneed
    · simp only [scraper_tool_node, hneed, hprod]
      simp
    · simp [scraper_tool_node, hneed]

/-- C5 amended witness: at concrete oracles, a run's trace holds the scraper
node at most once; a scraper finding one product clears the flag; a scraper
finding nothing leaves the state unchanged. -/
theorem C5_at_most_once_amended_witness :
    (((run_graph emptyStore emptyScraper answerLLM needyState).1.count Node.scraper_tool) ≤ 1)
    ∧ scraper_tool_node (fun _ => [JVal.null]) emptyStore needyState =
        .ok { needyState with retrieved_chunks := [], scraper_needed := false }
    ∧ scraper_tool_node emptyScraper emptyStore needyState = .ok needyState := by
  refine ⟨(C5_at_most_once_amended emptyStore emptyScraper answerLLM).1 needyState,
    (C5_at_most_once_amended emptyStore (fun _ => [JVal.null]) answerLLM).2.1
      needyState [] rfl rfl rfl,
    (C5_at_most_once_amended emptyStore emptyScraper answerLLM).2.2 needyState rfl⟩

/-! ## Theorems about index failure and run_agent's fallback -/

/-- A vector store whose every query raises (the index is unavailable). -/
def failingStore : VectorStore := fun _ _ _ _ => .error "Vector index unavailable"

/-- C8 counterexample: with the index raising on every query, run_agent does
not surface a retrieval error — it swallows the exception and returns the
mock fallback, a normal-shaped result whose final_answer and creative_output
are populated with canned text and whose chunk lists are empty; run_agent's
return value is an AgentState with no error marker of any kind, so the
terminal outcome is not a retrieval error. -/
theorem C8_index_error_counterexample :
    run_agent failingStore emptyScraper answerLLM "q" "resumes" none =
      mock_result "q" "resumes" none
    ∧ (mock_result "q" "resumes" none).final_answer =
        some "The candidate possesses strong skills in Python, JavaScript, and SQL. They also demonstrate proficiency in data analysis, project management, and communication."
    ∧ (mock_result "q" "resumes" none).creative_output =
        (mock_result "q" "resumes" none).final_answer := ⟨rfl, rfl, rfl⟩

/-- C8 as amended: when the index query raises, the error does propagate out
of retrieval_node, but run_agent catches every exception and silently
returns the mock fallback result — a non-error state with a populated mock
final_answer and empty chunk lists — while a run whose retrieval succeeds
with zero chunks ends with final_answer = None; no error marker reaches the
caller in either case. -/
theorem C8_index_error_amended (store store2 : VectorStore) (scraper : Scraper) (llm : LLM)
    (query kb_type : String) (document_id : Option String) (e : String)
    (hfail : ∀ qt kn n f, store qt kn n f = .error e)
    (hok : ∀ qt kn n f, store2 qt kn n f = .ok [])
    (hscraper : ∀ oq, scraper oq = []) :
    retrieval_node store (initial_state query kb_type document_id) = .error e
    ∧ run_agent store scraper llm query kb_type document_id =
        mock_result query kb_type document_id
    ∧ (run_agent store scraper llm query kb_type document_id).final_answer =
        some (mock_answer query kb_type)
    ∧ (run_agent store2 scraper llm query kb_type document_id).final_answer = none := by
  have hr : retrieval_node store (initial_state query kb_type document_id) = .error e := by
    simp only [retrieval_node, initial_state]
    rw [hfail]
  have hg : (run_graph store scraper llm (initial_state query kb_type document_id)).2 =
      .error e := by
    rw [run_graph, show (8 : Nat) = 7 + 1 from rfl,
      runSteps_step store scraper llm 7 .retrieval _ (by simp)]
    simp only [execNode]
    rw [hr]
  have hmock : run_agent store scraper llm query kb_type document_id =
      mock_result query kb_type document_id := by
    simp only [run_agent]
    rw [hg]
  refine ⟨hr, hmock, by rw [hmock]; rfl, ?_⟩
  rcases C2_zero_chunk_amended store2 scraper llm query kb_type document_id hok hscraper
    with ⟨sF, hok2, hfa, _⟩
  simp only [run_agent]
  rw [hok2]
  exact hfa

/-- C8 amended witness: the fallback and the zero-chunk contrast at concrete
oracles on the resumes KB. -/
theorem C8_index_error_amended_witness :
    retrieval_node failingStore (initial_state "q" "resumes" none) =
      .error "Vector index unavailable"
    ∧ run_agent failingStore emptyScraper answerLLM "q" "resumes" none =
        mock_result "q" "resumes" none
    ∧ (run_agent failingStore emptyScraper answerLLM "q" "resumes" none).final_answer =
        some (mock_answer "q" "resumes")
    ∧ (run_agent emptyStore emptyScraper answerLLM "q" "resumes" none).final_answer = none :=
  C8_index_error_amended failingStore emptyStore emptyScraper answerLLM "q" "resumes" none
    "Vector index unavailable" (fun _ _ _ _ => rfl) (fun _ _ _ _ => rfl) (fun _ => rfl)

/-! ## Theorems about the summarization and synthesis instructions -/

/-- A one-chunk state over the given knowledge base, as retrieval leaves it. -/
def chunkState (kb : String) : AgentState :=
  { kb_type := kb, query := "q", document_id := none,
    retrieved_chunks := [{ id := "c1", document := "text", metadata := .null, distance := none }],
    parsed_chunks := [], creative_output := none, final_answer := none,
    scraper_needed := false, scraper_query := none }

/-- C9 counterexample: the summarization step's model calls are identical
for two runs over different recognized knowledge bases — parser_node builds
one fixed instruction that never depends on the knowledge-base id — so two
runs with different recognized ids do NOT use different summarization
instructions. -/
theorem C9_summarization_prompt_counterexample :
    (parser_node answerLLM (chunkState "resumes")).2 =
      (parser_node answerLLM (chunkState "recipes")).2
    ∧ (parser_node answerLLM (chunkState "resumes")).2.length = 1
    ∧ ((parser_node answerLLM (chunkState "resumes")).2.map LLMCall.system) =
        [parserSystemPrompt]
    ∧ ("resumes" : String) ≠ "recipes" := by
  refine ⟨rfl, rfl, rfl, by decide⟩

/-- C9 as amended: the summarization step uses one fixed instruction for
every knowledge-base id (its calls depend only on the retrieved chunks); it
is the synthesis step that selects among four fixed persona templates keyed
by knowledge-base id, falling back to the supplements (wellness advisor)
template for unrecognized ids, and those four templates are pairwise
distinct. -/
theorem C9_prompts_amended (llm : LLM) :
    (∀ s1 s2 : AgentState, s1.retrieved_chunks = s2.retrieved_chunks →
      (parser_node llm s1).2 = (parser_node llm s2).2)
    ∧ (∀ s : AgentState, ∀ call ∈ (parser_node llm s).2, call.system = parserSystemPrompt)
    ∧ creativeSystemPrompt "resumes" = resumesPrompt
    ∧ creativeSystemPrompt "api_docs" = apiDocsPrompt
    ∧ creativeSystemPrompt "recipes" = recipesPrompt
    ∧ creativeSystemPrompt "supplements" = supplementsPrompt
    ∧ (∀ kb : String, kb ≠ "resumes" → kb ≠ "api_docs" → kb ≠ "recipes" →
        kb ≠ "supplements" → creativeSystemPrompt kb = supplementsPrompt)
    ∧ resumesPrompt ≠ apiDocsPrompt ∧ resumesPrompt ≠ recipesPrompt
    ∧ resumesPrompt ≠ supplementsPrompt ∧ apiDocsPrompt ≠ recipesPrompt
    ∧ apiDocsPrompt ≠ supplementsPrompt ∧ recipesPrompt ≠ supplementsPrompt := by
  refine ⟨fun s1 s2 h => ?_, fun s call hmem => ?_, rfl, rfl, rfl, rfl,
    fun kb h1 h2 h3 h4 => ?_, by decide, by decide, by decide, by decide, by decide, by decide⟩
  · by_cases hE : s2.retrieved_chunks.isEmpty <;> simp [parser_node, h, hE]
  · by_cases hE : s.retrieved_chunks.isEmpty
    · simp [parser_node, hE] at hmem
    · simp only [parser_node, hE, if_neg, Bool.false_eq_true, if_false,
        List.map_map] at hmem
      rcases List.mem_map.mp hmem with ⟨chunk, _, rfl⟩
      rfl
  · simp [creativeSystemPrompt, KnowledgeBaseType.value, h1, h2, h3, h4]

/-! ## Theorems about the SSE wire framing -/

theorem data_mk (cs : List Char) : (⟨cs⟩ : String).data = cs := rfl

theorem mk_append_str (a : String) (cs : List Char) :
    (⟨a.data ++ cs⟩ : String) = a ++ ⟨cs⟩ := by
  cases a
  rfl

theorem str_of_data_append (a b : String) : (⟨a.data ++ b.data⟩ : String) = a ++ b := by
  cases a
  cases b
  rfl

/-- Character contents of the block of data lines. -/
theorem dataLinesBlock_data : ∀ lines : List String,
    (dataLinesBlock lines).data =
      (lines.map (fun l => "data: ".data ++ l.data ++ ['\n'])).flatten
  | [] => rfl
  | line :: rest => by
      simp only [dataLinesBlock, data_append, dataLinesBlock_data rest, List.map_cons,
        List.flatten_cons, show ("\n" : String).data = ['\n'] from rfl, List.append_assoc]

/-- Newline-splitting a block of newline-terminated data lines followed by
the blank-line terminator recovers the data lines and two empty pieces. -/
theorem pySplitAux_block : ∀ (lines : List (List Char)), (∀ l ∈ lines, '\n' ∉ l) →
    pySplitAux ((lines.map (fun l => "data: ".data ++ l ++ ['\n'])).flatten ++ ['\n']) =
      lines.map (fun l => "data: ".data ++ l) ++ [[], []]
  | [], _ => rfl
  | l :: ls, h => by
      have hl : '\n' ∉ "data: ".data ++ l := by
        intro hm
        rcases List.mem_append.mp hm with hm | hm
        · revert hm; decide
        · exact h l (List.mem_cons_self _ _) hm
      have hrest := pySplitAux_block ls (fun x hx => h x (List.mem_cons_of_mem _ hx))
      have e1 : ((l :: ls).map (fun x => "data: ".data ++ x ++ ['\n'])).flatten ++ ['\n'] =
          ("data: ".data ++ l) ++ '\n' ::
            ((ls.map (fun x => "data: ".data ++ x ++ ['\n'])).flatten ++ ['\n']) := by
        simp [List.append_assoc]
      rw [e1, pySplitAux_append_nl _ _ hl, hrest]
      rfl

/-- Character-level framing of a string payload. -/
theorem encode_str_split (s k : String) (hk : '\n' ∉ k.data) :
    pySplitAux (encode_sse_event (.str s) k).data =
      ("event: ".data ++ k.data) ::
        ((pySplitAux s.data).map (fun cs => "data: ".data ++ cs) ++ [[], []]) := by
  have hA : '\n' ∉ "event: ".data ++ k.data := by
    intro hm
    rcases List.mem_append.mp hm with hm | hm
    · revert hm; decide
    · exact hk hm
  have e1 : (encode_sse_event (.str s) k).data =
      ("event: ".data ++ k.data) ++ '\n' ::
        (((pySplitAux s.data).map (fun cs => "data: ".data ++ cs ++ ['\n'])).flatten
          ++ ['\n']) := by
    simp [encode_sse_event, data_append, dataLinesBlock_data, pySplitNl, List.map_map,
      data_mk, List.append_assoc, show ("\n" : String).data = ['\n'] from rfl,
      Function.comp_def]
  rw [e1, pySplitAux_append_nl _ _ hA, pySplitAux_block _ (pySplitAux_noNl s.data)]

/-- Character-level framing of a structured payload. -/
theorem encode_json_split (j : JVal) (k : String) (hk : '\n' ∉ k.data) :
    pySplitAux (encode_sse_event (.json j) k).data =
      ("event: ".data ++ k.data) ::
        ("data: ".data ++ (jsonDumps j).data) :: [[], []] := by
  have hA : '\n' ∉ "event: ".data ++ k.data := by
    intro hm
    rcases List.mem_append.mp hm with hm | hm
    · revert hm; decide
    · exact hk hm
  have hD : '\n' ∉ "data: ".data ++ (jsonDumps j).data := by
    intro hm
    rcases List.mem_append.mp hm with hm | hm
    · revert hm; decide
    · exact jsonDumps_noNl j hm
  have e1 : (encode_sse_event (.json j) k).data =
      ("event: ".data ++ k.data) ++ '\n' ::
        (("data: ".data ++ (jsonDumps j).data) ++ '\n' :: ['\n']) := by
    simp [encode_sse_event, data_append, List.append_assoc,
      show ("\n" : String).data = ['\n'] from rfl]
  rw [e1, pySplitAux_append_nl _ _ hA, pySplitAux_append_nl _ _ hD]
  rfl

/-- C7: for every payload and (newline-free) event kind, the encoder emits
exactly the line "event: " with the kind, then the data lines — one "data: "
line per newline-separated piece of a string payload (the pieces carried
verbatim), or a single "data: " line holding the json.dumps rendering of a
structured payload — then the blank-line terminator (the trailing two empty
pieces of the newline split). At least one data line is always present. -/
theorem C7_sse_framing (d : SSEData) (k : String) (hk : '\n' ∉ k.data) :
    pySplitAux (encode_sse_event d k).data =
      ("event: " ++ k).data ::
        ((sseDataLines d).map (fun l => ("data: " ++ l).data) ++ [[], []])
    ∧ 1 ≤ (sseDataLines d).length
    ∧ (∀ s, d = .str s → sseDataLines d = pySplitNl s)
    ∧ (∀ j, d = .json j → sseDataLines d = [jsonDumps j]) := by
  refine ⟨?_, ?_, fun s hs => by subst hs; rfl, fun j hj => by subst hj; rfl⟩
  · cases d with
    | str s =>
      rw [encode_str_split s k hk]
      simp only [data_append, sseDataLines, pySplitNl, List.map_map, Function.comp_def,
        data_mk]
    | json j =>
      rw [encode_json_split j k hk]
      simp only [data_append, sseDataLines, List.map_cons, List.map_nil, List.cons_append,
        List.nil_append]
  · cases d with
    | str s =>
      show 1 ≤ (pySplitNl s).length
      simp only [pySplitNl, List.length_map]
      exact List.length_pos.mpr (pySplitAux_ne_nil s.data)
    | json j => exact le_refl 1

/-- C7 witness: the framing at a concrete two-line string payload and the
default event kind. -/
theorem C7_sse_framing_witness :
    pySplitAux (encode_sse_event (.str "hello\nworld") "message").data =
      ("event: " ++ "message").data ::
        ((sseDataLines (.str "hello\nworld")).map (fun l => ("data: " ++ l).data) ++ [[], []])
    ∧ 1 ≤ (sseDataLines (.str "hello\nworld")).length :=
  ⟨(C7_sse_framing (.str "hello\nworld") "message" (by decide)).1,
   (C7_sse_framing (.str "hello\nworld") "message" (by decide)).2.1⟩

end CDP
